import Mathlib

/-!
Verification of the rs-smtp connection protocol engine.

Shallow embedding of the rs-smtp sources (the `rs-smtp` crate under
`src/rs-smtp/src`, whose `parse` module matches `src/src/parse.rs`).
Byte strings are modelled as `List Nat` (each element a byte value,
obtained from the ASCII code of a character); the wire protocol only
carries ASCII in the modelled paths, so Rust byte indices coincide with
character indices.
-/

set_option autoImplicit false
set_option linter.unusedVariables false
set_option linter.unnecessarySeqFocus false

deriving instance DecidableEq for Except

namespace RsSmtp

/-! ## Dot-reader DFA (src/rs-smtp/src/data.rs)

`DataReader` decodes the DATA body framing.  `poll_read` fills a buffer
from the inner `BufReader`, truncates it to `n` bytes, then walks it with
a five-state DFA, copying bytes into the caller's buffer with
`buf.put_slice` and decrementing `n` once per copied byte.  A `continue`
skips the copy, and a `break` leaves the loop before the copy.
-/

/-- Byte values of an ASCII string. -/
def strBytes (s : String) : List Nat := s.data.map Char.toNat

inductive DrState
  | beginLine | dot | dotCR | cr | data | eof
deriving DecidableEq, Repr

structure DataReader where
  state : DrState
  limited : Bool
  n : Nat
deriving DecidableEq, Repr

/-- `DataReader::new` (data.rs lines 78-85): `limited` is `max_message_bytes > 0`,
`n` starts at `max_message_bytes`. -/
def DataReader.new (maxMessageBytes : Nat) : DataReader :=
  { state := .beginLine, limited := decide (0 < maxMessageBytes), n := maxMessageBytes }

/-- The `for c in bytes` loop of `poll_read` (data.rs lines 123-174).
Returns (bytes put into the caller's buffer, bytes consumed, final state,
final `n`).  `consumed` counts every visited byte, including one swallowed
by `continue` or dropped by `break`; only a fall-through to `put_slice`
appends the byte to the output and decrements `n`. -/
def pollLoop : DrState → Nat → List Nat → List Nat × Nat × DrState × Nat
  | st, n, [] => ([], 0, st, n)
  | st, n, c :: rest =>
    match st with
    | .beginLine =>
      if c = 46 then
        -- '.' : state = Dot, continue (no emit)
        let r := pollLoop .dot n rest
        (r.1, r.2.1 + 1, r.2.2)
      else
        let r := pollLoop .data (n - 1) rest
        (c :: r.1, r.2.1 + 1, r.2.2)
    | .dot =>
      if c = 13 then
        -- '\r' : state = DotCR, continue
        let r := pollLoop .dotCR n rest
        (r.1, r.2.1 + 1, r.2.2)
      else if c = 10 then
        -- '\n' : state = EOF, break
        ([], 1, .eof, n)
      else
        let r := pollLoop .data (n - 1) rest
        (c :: r.1, r.2.1 + 1, r.2.2)
    | .dotCR =>
      if c = 10 then
        ([], 1, .eof, n)
      else
        let r := pollLoop .data (n - 1) rest
        (c :: r.1, r.2.1 + 1, r.2.2)
    | .cr =>
      if c = 10 then
        -- '\n' : state = BeginLine, break -- the byte is consumed but never
        -- reaches `buf.put_slice` (data.rs lines 154-160)
        ([], 1, .beginLine, n)
      else
        let r := pollLoop .data (n - 1) rest
        (c :: r.1, r.2.1 + 1, r.2.2)
    | .data =>
      let st' : DrState := if c = 13 then .cr else if c = 10 then .beginLine else .data
      let r := pollLoop st' (n - 1) rest
      (c :: r.1, r.2.1 + 1, r.2.2)
    | .eof =>
      -- the `_ => ()` arm: unreachable from the entry check, byte emitted
      let r := pollLoop .eof (n - 1) rest
      (c :: r.1, r.2.1 + 1, r.2.2)

inductive PollResult
  | atEof
  | tooLarge
  | unexpectedEof
  | progress (emitted : List Nat) (consumed : Nat) (r : DataReader)
deriving DecidableEq, Repr

/-- One `poll_read` call (data.rs lines 89-184), with the inner
`poll_fill_buf` modelled as returning all remaining wire bytes.
The buffer truncation `if bytes.len() > this.n { &bytes[..this.n] }`
applies whether or not `limited` is set. -/
def DataReader.poll (r : DataReader) (input : List Nat) : PollResult :=
  if r.state = .eof then .atEof
  else if r.limited = true ∧ r.n = 0 then .tooLarge
  else if input.isEmpty then .unexpectedEof
  else
    let bytes := if input.length > r.n then input.take r.n else input
    let out := pollLoop r.state r.n bytes
    .progress out.1 out.2.1 { state := out.2.2.1, limited := r.limited, n := out.2.2.2 }

inductive DrOutcome
  | eofOk | errTooLarge | errUnexpectedEof | diverge
deriving DecidableEq, Repr

/-- Drive `poll_read` to completion.  A poll that consumes nothing and is
not at EOF returns `Poll::Pending` after `wake_by_ref`, and the next poll
repeats with identical state: that is a busy divergence.  Bytes put into
the caller's buffer are all counted as delivered (polls ending before EOF
return `Pending`, which under the `AsyncRead` contract would discard them;
this model is the charitable reading in which every emitted byte reaches
the Session). -/
def drRun : Nat → DataReader → List Nat → List Nat × DrOutcome
  | 0, _, _ => ([], .diverge)
  | fuel + 1, r, input =>
    match r.poll input with
    | .atEof => ([], .eofOk)
    | .tooLarge => ([], .errTooLarge)
    | .unexpectedEof => ([], .errUnexpectedEof)
    | .progress em cons r' =>
      if cons = 0 then ([], .diverge)
      else if r'.state = .eof then (em, .eofOk)
      else
        let rest := drRun fuel r' (input.drop cons)
        (em ++ rest.1, rest.2)

/-- Bytes the dot-reader delivers for a DATA body on the wire, together
with how the stream ends. -/
def deliver (maxMessageBytes : Nat) (wire : List Nat) : List Nat × DrOutcome :=
  drRun (wire.length + 1) (DataReader.new maxMessageBytes) wire

/-- The dot-decoding DFA exactly as the specification states it (§4.2).
It differs from the implementation in one transition: the `CR` state
emits the byte in both sub-cases (`CR`: `\n` → `BeginLine`; else →
`Data`; emit).  `none` means the terminator was never reached. -/
def specDotDecode : DrState → List Nat → Option (List Nat)
  | _, [] => none
  | st, c :: rest =>
    match st with
    | .beginLine =>
      if c = 46 then specDotDecode .dot rest
      else (specDotDecode .data rest).map (c :: ·)
    | .dot =>
      if c = 13 then specDotDecode .dotCR rest
      else if c = 10 then some []
      else (specDotDecode .data rest).map (c :: ·)
    | .dotCR =>
      if c = 10 then some []
      else (specDotDecode .data rest).map (c :: ·)
    | .cr =>
      let st' : DrState := if c = 10 then .beginLine else .data
      (specDotDecode st' rest).map (c :: ·)
    | .data =>
      let st' : DrState := if c = 13 then .cr else if c = 10 then .beginLine else .data
      (specDotDecode st' rest).map (c :: ·)
    | .eof => some []

/-! ## ASCII string helpers

Rust `str` operations modelled on the underlying character list.  The
protocol paths treated here are ASCII, where Rust's byte indices and
lengths agree with character indices and lengths, and where Rust's
Unicode-aware case mappings and whitespace classes agree with the ASCII
ones used below. -/

def upperChar (c : Char) : Char :=
  if 97 ≤ c.toNat ∧ c.toNat ≤ 122 then Char.ofNat (c.toNat - 32) else c

def lowerChar (c : Char) : Char :=
  if 65 ≤ c.toNat ∧ c.toNat ≤ 90 then Char.ofNat (c.toNat + 32) else c

def strUpper (s : String) : String := String.mk (s.data.map upperChar)

def strLower (s : String) : String := String.mk (s.data.map lowerChar)

def isWs (c : Char) : Bool := c.toNat = 32 ∨ c.toNat = 9 ∨ c.toNat = 10 ∨ c.toNat = 13

def strTake (s : String) (n : Nat) : String := String.mk (s.data.take n)

def strDrop (s : String) (n : Nat) : String := String.mk (s.data.drop n)

def strDropRight (s : String) (n : Nat) : String :=
  String.mk (s.data.take (s.data.length - n))

def strLen (s : String) : Nat := s.data.length

def listPrefixOf : List Char → List Char → Bool
  | [], _ => true
  | _ :: _, [] => false
  | p :: ps, c :: cs => p = c ∧ listPrefixOf ps cs

def strStartsWith (s p : String) : Bool := listPrefixOf p.data s.data

def strEndsWith (s p : String) : Bool := listPrefixOf p.data.reverse s.data.reverse

def strTrim (s : String) : String :=
  String.mk (((s.data.dropWhile isWs).reverse.dropWhile isWs).reverse)

/-- Rust `str::trim_end`. -/
def strTrimEnd (s : String) : String := String.mk (s.data.reverse.dropWhile isWs).reverse

/-- Rust `str::trim_start_matches(ch)`: strips every leading occurrence. -/
def dropLeading (ch : Char) (s : String) : String := String.mk (s.data.dropWhile (· = ch))

/-- Rust `str::trim_end_matches(ch)`: strips every trailing occurrence. -/
def dropTrailing (ch : Char) (s : String) : String :=
  String.mk (s.data.reverse.dropWhile (· = ch)).reverse

/-- Split at every character satisfying `p`, keeping empty tokens
(Rust `str::split`). -/
def splitByChar (p : Char → Bool) : List Char → List (List Char)
  | [] => [[]]
  | c :: rest =>
    let r := splitByChar p rest
    if p c then [] :: r else (c :: r.headD []) :: r.tail

/-- Rust `str::split_whitespace`. -/
def splitWs (s : String) : List String :=
  ((splitByChar isWs s.data).filter (· ≠ [])).map String.mk

/-- Rust `str::split(sep)` for a character separator. -/
def strSplitOnChar (sep : Char) (s : String) : List String :=
  (splitByChar (· = sep) s.data).map String.mk

/-- Rust `str::trim_end_matches(pat)` for a string pattern: repeatedly
strips the pattern from the end.  `fuel` bounds the recursion; the string
length always suffices. -/
def trimEndList : Nat → List Char → List Char → List Char
  | 0, l, _ => l
  | fuel + 1, l, pat =>
    if pat ≠ [] ∧ listPrefixOf pat.reverse l.reverse then
      trimEndList fuel (l.take (l.length - pat.length)) pat
    else l

def trimEndMatches (s pat : String) : String :=
  String.mk (trimEndList s.data.length s.data pat.data)

/-- Rust `usize::from_str`: an optional leading `+` sign, then at least
one decimal digit (usize overflow is ignored: the modelled sizes are
small). -/
def parseUsize (s : String) : Option Nat :=
  let digits := match s.data with
    | '+' :: d => d
    | d => d
  if digits.isEmpty ∨ ¬ digits.all (fun c => 48 ≤ c.toNat ∧ c.toNat ≤ 57) then none
  else some (digits.foldl (fun acc c => acc * 10 + (c.toNat - 48)) 0)

/-! ## Command parser (the crate's `parse` module, `src/src/parse.rs`) -/

/-- `parse_cmd` (parse.rs lines 4-29). -/
def parseCmd (line : String) : Except String (String × String) :=
  let line := trimEndMatches line "\r\n"
  if strStartsWith (strUpper line) "STARTTLS" then .ok ("STARTTLS", "")
  else
    let l := strLen line
    if l = 0 then .ok ("", "")
    else if l < 4 then .error s!"Command too short: {line}"
    else if l = 4 then .ok (strUpper line, "")
    else if l = 5 then .error s!"Mangled command: {line}"
    else if line.data.get? 4 ≠ some ' ' then .error s!"Mangled command: {line}"
    else .ok (strUpper (strTake line 4), trimEndMatches (strDrop line 5) " \r\n")

/-- `HashMap::insert`: replaces the value of an existing key in place,
otherwise appends.  The map is modelled as an association list in
insertion order (`HashMap` iteration order is unspecified; no modelled
property depends on it). -/
def insertArg : List (String × String) → String → String → List (String × String)
  | [], k, v => [(k, v)]
  | (k', v') :: rest, k, v =>
    if k' = k then (k, v) :: rest else (k', v') :: insertArg rest k v

/-- `parse_args` (parse.rs lines 31-52): `KEY=VALUE` or bare `KEY` tokens;
`split('=')` is read twice, so anything after a second `=` is dropped.
The bail arm is unreachable (`split` always yields a first part). -/
def parseArgs (args : List String) : Except String (List (String × String)) :=
  .ok (args.foldl (fun m arg =>
    if strLen arg = 0 then m
    else match strSplitOnChar '=' arg with
      | [] => m
      | [k] => insertArg m k ""
      | k :: v :: _ => insertArg m k v) [])

def b64Char (n : Nat) : Char :=
  if n < 26 then Char.ofNat (65 + n)
  else if n < 52 then Char.ofNat (97 + (n - 26))
  else if n < 62 then Char.ofNat (48 + (n - 52))
  else if n = 62 then '+' else '/'

def b64EncodeList : List Nat → List Char
  | [] => []
  | [a] => [b64Char (a / 4), b64Char (a % 4 * 16), '=', '=']
  | [a, b] => [b64Char (a / 4), b64Char (a % 4 * 16 + b / 16), b64Char (b % 16 * 4), '=']
  | a :: b :: c :: rest =>
    b64Char (a / 4) :: b64Char (a % 4 * 16 + b / 16) ::
      b64Char (b % 16 * 4 + c / 64) :: b64Char (c % 64) :: b64EncodeList rest

def b64encode (bytes : List Nat) : String := String.mk (b64EncodeList bytes)

def b64CharVal (n : Nat) : Option Nat :=
  if 65 ≤ n ∧ n ≤ 90 then some (n - 65)
  else if 97 ≤ n ∧ n ≤ 122 then some (n - 97 + 26)
  else if 48 ≤ n ∧ n ≤ 57 then some (n - 48 + 52)
  else if n = 43 then some 62
  else if n = 47 then some 63
  else none

def b64DecodeList : List Nat → Option (List Nat)
  | [] => some []
  | a :: b :: c :: d :: rest =>
    if rest.isEmpty ∧ c = 61 ∧ d = 61 then
      match b64CharVal a, b64CharVal b with
      | some va, some vb => if vb % 16 = 0 then some [va * 4 + vb / 16] else none
      | _, _ => none
    else if rest.isEmpty ∧ d = 61 then
      match b64CharVal a, b64CharVal b, b64CharVal c with
      | some va, some vb, some vc =>
        if vc % 4 = 0 then some [va * 4 + vb / 16, vb % 16 * 16 + vc / 4] else none
      | _, _, _ => none
    else
      match b64CharVal a, b64CharVal b, b64CharVal c, b64CharVal d, b64DecodeList rest with
      | some va, some vb, some vc, some vd, some tail =>
        some ((va * 4 + vb / 16) :: (vb % 16 * 16 + vc / 4) :: (vc % 4 * 64 + vd) :: tail)
      | _, _, _, _, _ => none
  | _ => none

def b64decode (s : String) : Option (List Nat) := b64DecodeList (strBytes s)

abbrev EnhancedCode := Int × Int × Int

def noEnhancedCode : EnhancedCode := (-1, -1, -1)

def enhancedCodeNotSet : EnhancedCode := (0, 0, 0)

/-- `MyStream::write_response` (stream.rs lines 46-73).  Returns the lines
written on the wire (each is followed by CRLF by `print_line`; the CRLF is
left implicit here).  Note the `for text in texts` loop ranges over every
text, the last one included, and is then followed by the final
space-separated line built from `texts.last()`. -/
def writeResponse (code : Nat) (ec : EnhancedCode) (texts : List String) : List String :=
  let ec := if ec = enhancedCodeNotSet then
      (if code / 100 = 2 ∨ code / 100 = 4 ∨ code / 100 = 5 then ((5 : Int), (5 : Int), (0 : Int))
       else noEnhancedCode)
    else ec
  let lastText := texts.getLastD ""
  (texts.map fun t => toString code ++ "-" ++ t) ++
    [if ec = noEnhancedCode then toString code ++ " " ++ lastText
     else toString code ++ " " ++ toString ec.1 ++ "." ++ toString ec.2.1 ++ "." ++
       toString ec.2.2 ++ " " ++ lastText]

/-! ## xtext decoding (src/rs-smtp/src/conn.rs, `decode_xtext`) -/

/-- Result of running `decode_xtext`: normal return, error return, or a
Rust panic (`unwrap` on an `Err`, out-of-bounds `replace_range`, or
`String::from_utf8` failure). -/
inductive XRes
  | ok (s : String) | err (msg : String) | panic
deriving DecidableEq, Repr

/-- The character class `[0-9A-F]` of the regex in `decode_xtext`. -/
def isUpperHex (c : Char) : Bool :=
  (48 ≤ c.toNat ∧ c.toNat ≤ 57) ∨ (65 ≤ c.toNat ∧ c.toNat ≤ 70)

/-- Leftmost, greedy, non-overlapping matches of `\+[0-9A-F]?[0-9A-F]?`
(`Regex::find_iter`), as (start index, length) pairs. -/
def findMatches : List Nat → Nat → List (Nat × Nat)
  | [], _ => []
  | c :: rest, i =>
    if c = 43 then
      match rest with
      | a :: b :: rest' =>
        if isUpperHex (Char.ofNat a) then
          if isUpperHex (Char.ofNat b) then (i, 3) :: findMatches rest' (i + 3)
          else (i, 2) :: findMatches (b :: rest') (i + 2)
        else (i, 1) :: findMatches (a :: b :: rest') (i + 1)
      | [a] => if isUpperHex (Char.ofNat a) then [(i, 2)] else [(i, 1)]
      | [] => [(i, 1)]
    else findMatches rest (i + 1)

/-- `String::replace_range`: panics (`none`) when the range end exceeds the
string length.  The modelled strings are ASCII, so byte ranges coincide
with character ranges. -/
def replaceRange (l : List Nat) (start stop : Nat) (repl : List Nat) : Option (List Nat) :=
  if start ≤ stop ∧ stop ≤ l.length then some (l.take start ++ repl ++ l.drop stop) else none

def hexDigitVal (c : Nat) : Option Nat :=
  if 48 ≤ c ∧ c ≤ 57 then some (c - 48)
  else if 65 ≤ c ∧ c ≤ 70 then some (c - 65 + 10)
  else if 97 ≤ c ∧ c ≤ 102 then some (c - 97 + 10)
  else none

/-- `u8::from_str_radix(s, 16)`: an optional leading `+` sign, then at
least one hex digit, value bounded by `u8::MAX`. -/
def fromStrRadix16 (s : List Nat) : Option Nat :=
  let digits := match s with
    | 43 :: d => d
    | d => d
  if digits.isEmpty then none
  else digits.foldl (fun acc c =>
    match acc, hexDigitVal c with
    | some a, some v => if a * 16 + v ≤ 255 then some (a * 16 + v) else none
    | _, _ => none) (some 0)

/-- The match-processing loop of `decode_xtext` (conn.rs lines 867-882).
The three `replace_range` calls run in sequence (the first two are not
`else`-chained with the third), `replace_err` keeps the last error
assigned, and `char.unwrap()` panics when the radix-16 parse failed. -/
def decodeXtextCore : List (Nat × Nat) → List Nat → Option String → List Nat → XRes
  | [], decoded, errm, _ =>
    match errm with
    | some m => .err m
    | none => .ok (String.mk (decoded.map Char.ofNat))
  | (start, len) :: ms, decoded, errm, val =>
    let mstr := (val.drop start).take len
    let step1 : Option (List Nat × Option String) :=
      if len ≠ 3 then
        match replaceRange decoded start (start + len) [] with
        | none => none
        | some d => some (d, some "incomplete hexchar")
      else some (decoded, errm)
    match step1 with
    | none => .panic
    | some (d1, e1) =>
      let ch := fromStrRadix16 mstr
      let step2 : Option (List Nat × Option String) :=
        if ch.isNone then
          match replaceRange d1 start (start + len) [] with
          | none => none
          | some d => some (d, some "invalid hexchar")
        else some (d1, e1)
      match step2 with
      | none => .panic
      | some (d2, e2) =>
        match ch with
        | none => .panic  -- char.unwrap() on an Err
        | some b =>
          if 128 ≤ b then .panic  -- String::from_utf8(vec![b]).unwrap()
          else
            match replaceRange d2 start (start + len) [b] with
            | none => .panic
            | some d3 => decodeXtextCore ms d3 e2 val

/-- `decode_xtext` (conn.rs lines 856-889). -/
def decodeXtext (val : String) : XRes :=
  let bytes := strBytes val
  if ¬ bytes.contains 43 then .ok val
  else decodeXtextCore (findMatches bytes 0) bytes none bytes

/-! ## Server configuration (src/rs-smtp/src/server.rs) and connection
state (src/rs-smtp/src/conn.rs)

The user-supplied Backend/Session and SASL mechanisms are external
collaborators: their results enter through an environment `Env`, and the
calls made to them are recorded as events.  Stream handles are tracked by
presence: `unsafeStream`/`safeStream` mirror the two `Option` fields of
`MyStream` (`is_tls()` is `safe_stream.is_some()`), `hasSession` mirrors
`session: Option<_>`, `bdatPipe` the producer end `bdat_pipe:
Option<DuplexStream>`, `hasDataResult` the `data_result` join handle. -/

structure Server where
  tlsAcceptor : Bool := false
  domain : String := ""
  maxRecipients : Nat := 0
  maxMessageBytes : Nat := 0
  maxLineLength : Nat := 2000
  allowInsecureAuth : Bool := true
  strict : Bool := false
  enableSmtputf8 : Bool := false
  enableRequiretls : Bool := false
  enableBinarymime : Bool := false
  caps : List String := ["PIPELINING", "8BITMIME", "ENHANCEDSTATUSCODES", "CHUNKING"]
deriving DecidableEq, Repr

structure Conn where
  unsafeStream : Bool := true
  safeStream : Bool := false
  helo : String := ""
  errCount : Nat := 0
  hasSession : Bool := false
  binarymime : Bool := false
  bdatPipe : Bool := false
  hasDataResult : Bool := false
  bytesReceived : Nat := 0
  fromReceived : Bool := false
  recipients : List String := []
  didAuth : Bool := false
  auths : List String := []
deriving DecidableEq, Repr

/-- `Conn::new` (conn.rs lines 49-70). -/
def Conn.init : Conn := {}

def Conn.isTls (c : Conn) : Bool := c.safeStream

structure MailOptions where
  body : String := "7BIT"
  size : Nat := 0
  requireTls : Bool := false
  utf8 : Bool := false
  auth : String := ""
deriving DecidableEq, Repr

/-- Result of one client line read in the AUTH loop. -/
inductive LineRes
  | timeout | rerr | line (s : String)
deriving DecidableEq, Repr

/-- Results of the external collaborators (Backend, Session, SASL
mechanisms, TLS handshake, transport reads) for one dispatched command. -/
structure Env where
  newSessionRes : Except String (List String) := .ok []
  mailRes : Except String Unit := .ok ()
  rcptRes : Except String Unit := .ok ()
  dataRes : Except String Unit := .ok ()
  handshakeOk : Bool := true
  saslSteps : List (Except String (List Nat × Bool)) := []
  authLines : List LineRes := []
  wire : List Nat := []
  pipeWriteRes : Except String Unit := .ok ()
deriving DecidableEq, Repr

/-- Observable actions of a command handler, in program order. -/
inductive Event
  | reply (code : Nat) (ec : EnhancedCode) (texts : List String)
  | sessionMail (sender : String) (opts : MailOptions)
  | sessionRcpt (rcpt : String)
  | sessionDataStart
  | sessionDataSpawn
  | sessionReset
  | sessionLogout
  | pipeWrite (bytes : List Nat)
  | pipeShutdown
  | streamClose
  | drainWire
deriving DecidableEq, Repr

/-- `Conn::reset` (conn.rs lines 840-853): shut down and drop the BDAT
pipe, zero `bytes_received`, call `session.reset()` when a session exists,
clear `from_received` and `recipients`.  (`binarymime` is not touched.) -/
def Conn.reset (c : Conn) : Conn × List Event :=
  let p : Conn × List Event :=
    if c.bdatPipe then ({ c with bdatPipe := false }, [.pipeShutdown]) else (c, [])
  let c1 : Conn := { p.1 with bytesReceived := 0 }
  let evs := p.2 ++ (if c1.hasSession then [Event.sessionReset] else [])
  ({ c1 with fromReceived := false, recipients := [] }, evs)

/-- `Conn::close` (conn.rs lines 164-178). -/
def Conn.close (c : Conn) : Conn × List Event :=
  let evs := (if c.hasSession then [Event.sessionLogout] else []) ++
    [Event.streamClose] ++ (if c.bdatPipe then [Event.pipeShutdown] else [])
  ({ c with
      hasSession := false
      unsafeStream := false
      safeStream := false
      bdatPipe := false
      bytesReceived := 0 }, evs)

/-- `Conn::protocol_error` (conn.rs lines 159-162). -/
def protocolError (c : Conn) (code : Nat) (ec : EnhancedCode) (msg : String) :
    Conn × List Event :=
  ({ c with errCount := c.errCount + 1 }, [.reply code ec [msg]])

/-- `Conn::auth_allowed` (conn.rs lines 184-186). -/
def authAllowed (srv : Server) (c : Conn) : Bool :=
  !c.auths.isEmpty && (c.isTls || srv.allowInsecureAuth)

/-- `Conn::handle_greet` (conn.rs lines 188-254).  `helo` is stored before
the Backend is asked for a session; the EHLO capability list is built from
`server.caps` plus the dynamically computed entries. -/
def handleGreet (srv : Server) (env : Env) (c : Conn) (enhanced : Bool) (arg : String) :
    Conn × List Event :=
  let c := { c with helo := arg }
  match env.newSessionRes with
  | .error err => (c, [.reply 451 (4, 0, 0) [err]])
  | .ok mechs =>
    let c := { c with auths := mechs, hasSession := true }
    if ¬ enhanced then (c, [.reply 250 (2, 0, 0) ["Hello " ++ c.helo]])
    else
      let caps := srv.caps
      let caps := caps ++ (if srv.tlsAcceptor ∧ ¬ c.isTls then ["STARTTLS"] else [])
      let caps := caps ++
        (if authAllowed srv c then [c.auths.foldl (fun s n => s ++ " " ++ n) "AUTH"] else [])
      let caps := caps ++ (if srv.enableSmtputf8 then ["SMTPUTF8"] else [])
      let caps := caps ++ (if srv.enableRequiretls ∧ c.isTls then ["REQUIRETLS"] else [])
      let caps := caps ++ (if srv.enableBinarymime then ["BINARYMIME"] else [])
      let caps := caps ++
        [if 0 < srv.maxMessageBytes then "SIZE " ++ toString srv.maxMessageBytes else "SIZE"]
      (c, [.reply 250 noEnhancedCode (("Hello " ++ c.helo) :: caps)])

inductive ParamsOut
  | panicked
  | errReply (code : Nat) (ec : EnhancedCode) (msg : String)
  | done (opts : MailOptions)
deriving DecidableEq, Repr

/-- The ESMTP parameter loop of `handle_mail` (conn.rs lines 316-417). -/
def mailParamsLoop (srv : Server) : MailOptions → List (String × String) → ParamsOut
  | opts, [] => .done opts
  | opts, (key, value) :: rest =>
    if key = "SIZE" then
      match parseUsize value with
      | none => .errReply 501 (5, 5, 4) "Unable to parse SIZE as an integer"
      | some size =>
        if 0 < srv.maxMessageBytes ∧ srv.maxMessageBytes < size then
          .errReply 552 (5, 3, 4) "Message size exceeds maximum message size"
        else mailParamsLoop srv { opts with size := size } rest
    else if key = "SMTPUTF8" then
      if ¬ srv.enableSmtputf8 then .errReply 504 (5, 5, 4) "SMTPUTF8 is not implemented"
      else mailParamsLoop srv { opts with utf8 := true } rest
    else if key = "REQUIRETLS" then
      if ¬ srv.enableRequiretls then .errReply 504 (5, 5, 4) "REQUIRETLS is not implemented"
      else mailParamsLoop srv { opts with requireTls := true } rest
    else if key = "BODY" then
      if value = "BINARYMIME" then
        if ¬ srv.enableBinarymime then .errReply 501 (5, 5, 4) "BINARYMIME is not implemented"
        else mailParamsLoop srv { opts with body := value } rest
      else if value = "7BIT" ∨ value = "8BITMIME" then
        mailParamsLoop srv { opts with body := value } rest
      else .errReply 500 (5, 5, 4) "Unknown BODY value"
    else if key = "AUTH" then
      match decodeXtext value with
      | .panic => .panicked
      | .err _ => .errReply 500 (5, 5, 4) "Malformed AUTH parameter value"
      | .ok v =>
        if ¬ strStartsWith v "<" then .errReply 500 (5, 5, 4) "Missing opening angle bracket"
        else if ¬ strEndsWith v ">" then .errReply 500 (5, 5, 4) "Missing closing angle bracket"
        else mailParamsLoop srv { opts with auth := strDropRight (strDrop v 1) 1 } rest
    else .errReply 500 (5, 5, 4) "Unknown MAIL FROM argument"

/-- The tail of `handle_mail` after parameter parsing (conn.rs lines
420-432): the session check, `session.mail`, the reply, `from_received`. -/
def mailFinish (env : Env) (c : Conn) (sender : String) (opts : MailOptions) :
    Conn × List Event :=
  if ¬ c.hasSession then (c, [.reply 502 (5, 5, 1) ["Wrong sequence of commands"]])
  else
    match env.mailRes with
    | .error e => (c, [.sessionMail sender opts, .reply 451 (4, 0, 0) [e]])
    | .ok _ =>
      ({ c with fromReceived := true }, [.sessionMail sender opts, .reply 250 (2, 0, 0) ["OK"]])

/-- `Conn::handle_mail` (conn.rs lines 256-433); `none` models a panic
reached through `decode_xtext` on an `AUTH=` parameter. -/
def handleMail (srv : Server) (env : Env) (c : Conn) (arg : String) :
    Option (Conn × List Event) :=
  if strLen c.helo = 0 then
    some (c, [.reply 502 (2, 5, 1) ["Please introduce yourself first."]])
  else if c.bdatPipe then
    some (c, [.reply 502 (5, 5, 1) ["MAIL not allowed during message transfer"]])
  else if strLen arg < 6 ∨ strUpper (strTake arg 5) ≠ "FROM:" then
    some (c, [.reply 501 (5, 5, 2) ["Was expecting MAIL arg syntax of FROM:<address>"]])
  else
    let fromArgs := strSplitOnChar ' ' (strTrim (strDrop arg 5))
    let fa0 := fromArgs.headD ""
    if srv.strict ∧ (¬ strStartsWith fa0 "<" ∨ ¬ strEndsWith fa0 ">") then
      some (c, [.reply 501 (5, 5, 2) ["Was expecting MAIL arg syntax of FROM:<address>"]])
    else if fromArgs.isEmpty ∨ strLen fa0 < 3 then
      some (c, [.reply 501 (5, 5, 2) ["Was expecting MAIL arg syntax of FROM:<address>"]])
    else
      let sender := strDropRight (strDrop fa0 1) 1
      let c := { c with binarymime := false }
      if 1 < fromArgs.length then
        match parseArgs fromArgs.tail with
        | .error _ => some (c, [.reply 501 (5, 5, 4) ["Unable to parse MAIL ESMTP parameters"]])
        | .ok args =>
          match mailParamsLoop srv {} args with
          | .panicked => none
          | .errReply code ec msg => some (c, [.reply code ec [msg]])
          | .done opts => some (mailFinish env c sender opts)
      else some (mailFinish env c sender {})

/-- `Conn::handle_rcpt` (conn.rs lines 456-516). -/
def handleRcpt (srv : Server) (env : Env) (c : Conn) (arg0 : String) : Conn × List Event :=
  let arg := strUpper arg0
  if ¬ c.fromReceived then (c, [.reply 502 (5, 5, 1) ["Missing MAIL FROM command"]])
  else if c.bdatPipe then
    (c, [.reply 502 (5, 5, 1) ["RCPT not allowed during message transfer"]])
  else if strLen arg < 4 ∨ ¬ strStartsWith arg "TO:" then
    (c, [.reply 501 (5, 5, 2) ["Was expecting RCPT arg syntax of TO:<address>"]])
  else
    let recipient := strLower (strTrim (dropTrailing '>' (dropLeading '<' (strDrop arg 3))))
    if 0 < srv.maxRecipients ∧ srv.maxRecipients ≤ c.recipients.length then
      (c, [.reply 552 (5, 5, 3) ["Too many recipients. Max is " ++ toString srv.maxRecipients]])
    else if ¬ c.hasSession then (c, [.reply 502 (5, 5, 1) ["Wrong sequence of commands"]])
    else
      match env.rcptRes with
      | .error e => (c, [.sessionRcpt recipient, .reply 451 (4, 0, 0) [e]])
      | .ok _ =>
        ({ c with recipients := c.recipients ++ [recipient] },
          [.sessionRcpt recipient, .reply 250 (2, 0, 0) ["OK"]])

/-- The challenge-response loop of `handle_auth` (conn.rs lines 569-615).
The mechanism's successive `next` results and the client's line reads come
from the environment; an exhausted oracle is modelled as a mechanism
error, and a missing client line as a read timeout. -/
def authLoop (c : Conn) :
    List (Except String (List Nat × Bool)) → List LineRes → List Nat → Conn × List Event
  | [], _, _ => (c, [.reply 454 (4, 7, 0) ["mechanism oracle exhausted"]])
  | step :: steps, lines, _response =>
    match step with
    | .error e => (c, [.reply 454 (4, 7, 0) [e]])
    | .ok ch =>
      if ch.2 then
        ({ c with didAuth := true }, [.reply 235 (2, 0, 0) ["Authentication succeeded"]])
      else
        let encoded := if ch.1.isEmpty then "" else b64encode ch.1
        let ev1 := Event.reply 334 noEnhancedCode [encoded]
        match lines with
        | [] => (c, [ev1, .reply 454 (4, 7, 0) ["Read timeout"]])
        | lr :: lines2 =>
          match lr with
          | .timeout => (c, [ev1, .reply 454 (4, 7, 0) ["Read timeout"]])
          | .rerr => (c, [ev1, .reply 454 (4, 7, 0) ["Read error"]])
          | .line s =>
            let enc2 := strTrimEnd s
            if enc2 = "*" then (c, [ev1, .reply 501 (5, 0, 0) ["Negotiation cancelled"]])
            else
              match b64decode enc2 with
              | none => (c, [ev1, .reply 454 (4, 7, 0) ["Invalid base64 data"]])
              | some resp =>
                let r := authLoop c steps lines2 resp
                (r.1, ev1 :: r.2)

/-- `Conn::handle_auth` (conn.rs lines 518-619). -/
def handleAuth (srv : Server) (env : Env) (c : Conn) (arg : String) : Conn × List Event :=
  if c.auths.isEmpty then (c, [.reply 502 (5, 5, 1) ["Authentication disabled"]])
  else if c.helo = "" then (c, [.reply 502 (5, 5, 1) ["Please introduce yourself first."]])
  else if c.didAuth then (c, [.reply 503 (5, 5, 1) ["Already authenticated."]])
  else
    let parts := splitWs arg
    if parts.isEmpty then (c, [.reply 502 (5, 5, 4) ["Missing parameter"]])
    else if ¬ c.isTls ∧ ¬ srv.allowInsecureAuth then
      (c, [.reply 502 (5, 5, 1) ["TLS is required"]])
    else
      let mechanism := strUpper (parts.headD "")
      let irRes : Option (List Nat) :=
        if 1 < parts.length then b64decode (parts.getD 1 "") else some []
      match irRes with
      | none => (c, [])
      | some ir =>
        if ¬ c.auths.contains mechanism then
          (c, [.reply 504 (5, 7, 4) ["Unsupported authentication mechanism"]])
        else authLoop c env.saslSteps env.authLines ir

/-- `Conn::handle_starttls` (conn.rs lines 621-651).  `MyStream::starttls`
takes the cleartext stream before the handshake; on success the session is
logged out and dropped, `helo` and `did_auth` are cleared, and `reset`
runs. -/
def handleStarttls (srv : Server) (env : Env) (c : Conn) : Conn × List Event :=
  if c.isTls then (c, [.reply 502 (5, 5, 1) ["Already in TLS mode"]])
  else if ¬ srv.tlsAcceptor then (c, [.reply 502 (5, 5, 1) ["TLS not supported"]])
  else
    let ev0 := Event.reply 220 (2, 0, 0) ["Ready to start TLS"]
    if ¬ c.unsafeStream then (c, [ev0, .reply 550 (5, 0, 0) ["Handshake error"]])
    else
      let cT := { c with unsafeStream := false }
      if ¬ env.handshakeOk then (cT, [ev0, .reply 550 (5, 0, 0) ["Handshake error"]])
      else
        let cS := { cT with safeStream := true }
        let p1 : Conn × List Event :=
          if cS.hasSession then ({ cS with hasSession := false }, [.sessionLogout]) else (cS, [])
        let c2 := { p1.1 with helo := "", didAuth := false }
        let r := Conn.reset c2
        (r.1, ev0 :: p1.2 ++ r.2)

/-- `Conn::handle_data` (conn.rs lines 653-720).  The Session drains the
dot-reader; its result comes from the environment.  Afterwards the
dispatcher sets `limited = false` and drops the reader — the drain
(`read_to_end`) is commented out in the source, so nothing further is read
from the wire by the dispatcher.  `none` models the
`session.as_mut().unwrap()` panic. -/
def handleData (srv : Server) (env : Env) (c : Conn) (arg : String) :
    Option (Conn × List Event) :=
  if 0 < strLen arg then
    some (c, [.reply 501 (5, 5, 4) ["DATA command should not have any arguments"]])
  else if c.bdatPipe then
    some (c, [.reply 502 (5, 5, 1) ["DATA not allowed during message transfer"]])
  else if c.binarymime then
    some (c, [.reply 502 (5, 5, 1) ["DATA not allowed for BINARYMIME messages"]])
  else if ¬ c.fromReceived ∨ c.recipients.isEmpty then
    some (c, [.reply 502 (5, 5, 1) ["Missing RCPT TO command."]])
  else if ¬ c.hasSession then none
  else
    let ev0 := Event.reply 354 (2, 0, 0) ["Go ahead. End your data with <CR><LF>.<CR><LF>"]
    let evRes : List Event :=
      match env.dataRes with
      | .ok _ => [.reply 250 (2, 0, 0) ["OK"]]
      | .error e => [.reply 554 (5, 0, 0) [e]]
    let r := Conn.reset c
    some (r.1, ev0 :: Event.sessionDataStart :: evRes ++ r.2)

/-- The pipe-creation step of `handle_bdat` (conn.rs lines 776-790): the
first chunk of a transaction creates the duplex pipe, takes the session
and spawns the consumer task running `session.data(rx)`. -/
def bdatSpawn (c : Conn) : Conn × List Event :=
  if ¬ c.bdatPipe then
    ({ c with bdatPipe := true, hasSession := false, hasDataResult := true },
      [.sessionDataSpawn])
  else (c, [])

/-- The LAST-chunk epilogue of `handle_bdat` (conn.rs lines 818-837):
shut the producer end, join the consumer, reply with its result, move
the session back, then reset. -/
def bdatFinishLast (env : Env) (c2 : Conn) : Conn × List Event :=
  let evJ : List Event :=
    match env.dataRes with
    | .ok _ => [.reply 250 (2, 0, 0) ["OK"]]
    | .error e => [.reply 554 (5, 0, 0) [e]]
  let p2 : Conn × List Event :=
    if c2.hasDataResult then
      ({ c2 with hasSession := true, hasDataResult := false }, evJ)
    else (c2, [])
  let r := Conn.reset p2.1
  (r.1, Event.pipeShutdown :: p2.2 ++ r.2)

/-- The transfer part of `handle_bdat` after argument validation
(conn.rs lines 765-837).  `none` models the `read_exact(...).unwrap()`
panic when the wire ends before `size` bytes, and the
`session.take().unwrap()` panic when no session exists at pipe
creation. -/
def bdatTransfer (srv : Server) (env : Env) (c : Conn) (size : Nat) (lastChunk : Bool) :
    Option (Conn × List Event) :=
  if srv.maxMessageBytes ≠ 0 ∧ srv.maxMessageBytes < c.bytesReceived + size then
    let r := Conn.reset c
    some (r.1, [.reply 552 (5, 3, 4) ["Max message size exceeded"], .drainWire] ++ r.2)
  else if ¬ c.bdatPipe ∧ ¬ c.hasSession then none
  else
    let p := bdatSpawn c
    if env.wire.length < size then none
    else
      let buf := env.wire.take size
      match env.pipeWriteRes with
      | .error e =>
        let r := Conn.reset p.1
        some (r.1, p.2 ++ [.drainWire, .reply 554 (5, 0, 0) [e]] ++ r.2)
      | .ok _ =>
        let c2 := { p.1 with bytesReceived := p.1.bytesReceived + size }
        if lastChunk then
          let r := bdatFinishLast env c2
          some (r.1, p.2 ++ Event.pipeWrite buf :: r.2)
        else some (c2, p.2 ++ [.pipeWrite buf, .reply 250 (2, 0, 0) ["Continue"]])

/-- `Conn::handle_bdat` (conn.rs lines 722-838): argument validation, then
the transfer. -/
def handleBdat (srv : Server) (env : Env) (c : Conn) (arg : String) :
    Option (Conn × List Event) :=
  let args := splitWs arg
  if args.isEmpty then some (c, [.reply 501 (5, 5, 4) ["Missing chunk size argument"]])
  else if 2 < args.length then some (c, [.reply 501 (5, 5, 4) ["Too many arguments"]])
  else if ¬ c.fromReceived ∨ c.recipients.isEmpty then
    some (c, [.reply 502 (5, 5, 1) ["Missing RCPT TO command."]])
  else if args.length = 2 ∧ strLower (args.getD 1 "") ≠ "last" then
    some (c, [.reply 501 (5, 5, 4) ["Unknown BDAT argument"]])
  else
    match parseUsize (args.getD 0 "") with
    | none => some (c, [.reply 501 (5, 5, 4) ["Malformed size argument"]])
    | some size => bdatTransfer srv env c size (decide (args.length = 2))

/-- The `"SEND" | "SOML" | "SAML" | "EXPN" | "HELP" | "TURN"` arm of
`Conn::handle` (conn.rs lines 81-88). -/
def notImplemented (c : Conn) (cmd : String) : Conn × List Event :=
  (c, [.reply 502 (5, 5, 1) [s!"{cmd} command not implemented"]])

/-- The `"VRFY"` arm (conn.rs lines 99-106). -/
def vrfyReply (c : Conn) : Conn × List Event :=
  (c, [.reply 252 (2, 5, 0) ["Cannot VRFY user, but will accept message"]])

/-- The `"NOOP"` arm (conn.rs lines 107-110). -/
def noopReply (c : Conn) : Conn × List Event :=
  (c, [.reply 250 (2, 0, 0) ["I have sucessfully done nothing"]])

/-- The `"RSET"` arm (conn.rs lines 111-115): `reset` then the reply. -/
def rsetCmd (c : Conn) : Conn × List Event :=
  ((Conn.reset c).1, (Conn.reset c).2 ++ [.reply 250 (2, 0, 0) ["Session reset"]])

/-- The `"QUIT"` arm (conn.rs lines 122-132): the reply, then `close`. -/
def quitCmd (c : Conn) : Conn × List Event :=
  ((Conn.close c).1, .reply 221 (2, 0, 0) ["Bye"] :: (Conn.close c).2)

/-- The dispatch on the upper-cased verb in `Conn::handle` (conn.rs lines
79-156). -/
def handleCmd (srv : Server) (env : Env) (c : Conn) (cmd arg : String) :
    Option (Conn × List Event) :=
  if cmd = "SEND" ∨ cmd = "SOML" ∨ cmd = "SAML" ∨ cmd = "EXPN" ∨ cmd = "HELP" ∨ cmd = "TURN" then
    some (notImplemented c cmd)
  else if cmd = "HELO" ∨ cmd = "EHLO" then
    some (handleGreet srv env c (decide (cmd = "EHLO")) arg)
  else if cmd = "MAIL" then handleMail srv env c arg
  else if cmd = "RCPT" then some (handleRcpt srv env c arg)
  else if cmd = "VRFY" then some (vrfyReply c)
  else if cmd = "NOOP" then some (noopReply c)
  else if cmd = "RSET" then some (rsetCmd c)
  else if cmd = "BDAT" then handleBdat srv env c arg
  else if cmd = "DATA" then handleData srv env c arg
  else if cmd = "QUIT" then some (quitCmd c)
  else if cmd = "AUTH" then
    if c.auths.isEmpty then
      some (protocolError c 500 (5, 5, 2) "Syntax error, AUTH command unrecognized")
    else some (handleAuth srv env c arg)
  else if cmd = "STARTTLS" then some (handleStarttls srv env c)
  else some (protocolError c 500 (5, 5, 2) s!"Syntax errors, {cmd} command unrecognized")

/-- `Conn::handle` (conn.rs lines 72-157).  `none` propagates a panic from
a handler. -/
def handle (srv : Server) (env : Env) (c : Conn) (cmd0 arg : String) :
    Option (Conn × List Event) :=
  if cmd0 = "" then some (protocolError c 500 (5, 5, 2) "Error: bad syntax")
  else handleCmd srv env c (strUpper cmd0) arg

/-- One dispatched command: verb, argument, and the collaborators' results. -/
structure Step where
  cmd : String
  arg : String
  env : Env

def runCmds (srv : Server) : Conn → List Step → Option Conn
  | c, [] => some c
  | c, s :: rest =>
    match handle srv s.env c s.cmd s.arg with
    | none => none
    | some r => runCmds srv r.1 rest

/-- Connection states reachable from a fresh connection (`Conn::new`) by
dispatching any command sequence under any collaborator behaviour. -/
def Reachable (srv : Server) (c : Conn) : Prop :=
  ∃ steps, runCmds srv Conn.init steps = some c

/-- The three outcomes of `Conn::read_line` as seen by `handle_conn`:
clean EOF (`Ok(0)`), a line, or an error.  `read_line` wraps the read in
`timeout(read_timeout, ...)` and `?` (conn.rs lines 450-453) turns an
elapsed timeout into the same `Err` as a transport error. -/
inductive ReadOutcome
  | eofZero | ok (line : String) | err
deriving DecidableEq, Repr

/-- One iteration of the dispatch loop of `Server::handle_conn`
(server.rs lines 86-112).  The Bool is whether the loop continues. -/
def connLoopStep (srv : Server) (env : Env) (c : Conn) (r : ReadOutcome) :
    Option (Conn × List Event × Bool) :=
  match r with
  | .eofZero => some (c, [.reply 221 (2, 4, 0) ["Connection closed, bye"]], false)
  | .ok line =>
    match parseCmd line with
    | .ok p =>
      match handle srv env c p.1 p.2 with
      | none => none
      | some r2 => some (r2.1, r2.2, true)
    | .error _ => some (c, [.reply 501 (5, 5, 2) ["Bad command"]], true)
  | .err => some (c, [.reply 221 (2, 4, 0) ["Connection error, sorry"]], false)

/-! ## BDAT transfer runs (for the chunk-concatenation property) -/

def pipeWrites (evs : List Event) : List (List Nat) :=
  evs.filterMap fun e =>
    match e with
    | .pipeWrite b => some b
    | _ => none

structure BdatChunk where
  arg : String
  env : Env

/-- Dispatch a sequence of BDAT commands, accumulating events. -/
def bdatRun (srv : Server) : Conn → List BdatChunk → Option (Conn × List Event)
  | c, [] => some (c, [])
  | c, ch :: rest =>
    match handleBdat srv ch.env c ch.arg with
    | none => none
    | some r =>
      match bdatRun srv r.1 rest with
      | none => none
      | some r2 => some (r2.1, r.2 ++ r2.2)

/-- The connection state after an accepted non-LAST BDAT chunk of `size`
bytes (pipe created and consumer spawned on the first chunk,
`bytes_received` increased). -/
def bdatNextConn (c : Conn) (size : Nat) : Conn :=
  { (bdatSpawn c).1 with bytesReceived := (bdatSpawn c).1.bytesReceived + size }

/-- An accepted BDAT transfer: every chunk passes the dispatcher's guards
(transaction upright, size well formed and within the cap, wire long
enough, pipe write succeeds), and `LAST` appears exactly on the final
chunk. -/
def BdatOk (srv : Server) : Conn → List BdatChunk → Prop
  | _, [] => True
  | c, ch :: rest =>
    c.fromReceived = true ∧ c.recipients ≠ [] ∧ (c.bdatPipe = false → c.hasSession = true) ∧
    ch.env.pipeWriteRes = Except.ok () ∧
    ∃ s size,
      parseUsize s = some size ∧
      (srv.maxMessageBytes = 0 ∨ c.bytesReceived + size ≤ srv.maxMessageBytes) ∧
      size ≤ ch.env.wire.length ∧
      ((splitWs ch.arg = [s] ∧ BdatOk srv (bdatNextConn c size) rest) ∨
        (∃ t, splitWs ch.arg = [s, t] ∧ strLower t = "last" ∧ rest = []))

/-- The size declared in a chunk's BDAT header. -/
def declaredSize (ch : BdatChunk) : Nat :=
  (parseUsize ((splitWs ch.arg).getD 0 "")).getD 0

/-- The `size` bytes following a chunk's BDAT header on the wire. -/
def chunkPayload (ch : BdatChunk) : List Nat := ch.env.wire.take (declaredSize ch)

/-! ## Sanity checks and claim theorems -/

section BinarymimeInvariant

/-! `binarymime` is never set to `true` anywhere in conn.rs: it is
initialized `false`, re-cleared by `handle_mail`, and read by
`handle_data`.  The lemmas below push this through every handler to the
reachability invariant. -/

theorem reset_binarymime (c : Conn) : (Conn.reset c).1.binarymime = c.binarymime := by
  simp only [Conn.reset]
  split <;> rfl

theorem close_binarymime (c : Conn) : (Conn.close c).1.binarymime = c.binarymime := rfl

theorem greet_binarymime (srv : Server) (env : Env) (c : Conn) (e : Bool) (arg : String) :
    (handleGreet srv env c e arg).1.binarymime = c.binarymime := by
  simp only [handleGreet]
  rcases env.newSessionRes with _ | _ <;> simp <;> split <;> rfl

theorem rcpt_binarymime (srv : Server) (env : Env) (c : Conn) (arg : String) :
    (handleRcpt srv env c arg).1.binarymime = c.binarymime := by
  simp only [handleRcpt]
  split
  · rfl
  split
  · rfl
  split
  · rfl
  split
  · rfl
  split
  · rfl
  rcases env.rcptRes with _ | _ <;> rfl

theorem authLoop_binarymime (c : Conn) :
    ∀ (steps : List (Except String (List Nat × Bool))) (lines : List LineRes) (resp : List Nat),
      (authLoop c steps lines resp).1.binarymime = c.binarymime := by
  intro steps
  induction steps with
  | nil => intro lines resp; rfl
  | cons step rest ih =>
    intro lines resp
    rcases step with e | ch
    · rfl
    · simp only [authLoop]
      split
      · rfl
      rcases lines with _ | ⟨lr, lines2⟩
      · rfl
      rcases lr with _ | _ | s
      · rfl
      · rfl
      · simp only []
        split
        · rfl
        rcases h : b64decode (strTrimEnd s) with _ | resp2
        · simp [h]
        · simp [h, ih]

theorem auth_binarymime (srv : Server) (env : Env) (c : Conn) (arg : String) :
    (handleAuth srv env c arg).1.binarymime = c.binarymime := by
  simp only [handleAuth]
  split
  · rfl
  split
  · rfl
  split
  · rfl
  split
  · rfl
  split
  · rfl
  rcases hir : (if 1 < (splitWs arg).length then b64decode ((splitWs arg).getD 1 "")
      else some []) with _ | ir
  · simp [hir]
  · simp only [hir]
    split
    · rfl
    exact authLoop_binarymime c env.saslSteps env.authLines ir

theorem starttls_binarymime (srv : Server) (env : Env) (c : Conn) :
    (handleStarttls srv env c).1.binarymime = c.binarymime := by
  simp only [handleStarttls]
  split
  · rfl
  split
  · rfl
  split
  · rfl
  split
  · rfl
  rw [reset_binarymime]
  split <;> rfl

theorem data_binarymime (srv : Server) (env : Env) (c : Conn) (arg : String)
    (r : Conn × List Event) (h : handleData srv env c arg = some r) :
    r.1.binarymime = c.binarymime := by
  simp only [handleData] at h
  split at h
  · cases h; rfl
  split at h
  · cases h; rfl
  split at h
  · cases h; rfl
  split at h
  · cases h; rfl
  split at h
  · cases h
  · cases h
    exact reset_binarymime c

theorem bdatSpawn_binarymime (c : Conn) : (bdatSpawn c).1.binarymime = c.binarymime := by
  simp only [bdatSpawn]
  split <;> rfl

theorem bdatFinishLast_binarymime (env : Env) (c2 : Conn) :
    (bdatFinishLast env c2).1.binarymime = c2.binarymime := by
  simp only [bdatFinishLast]
  rw [reset_binarymime]
  split <;> rfl

theorem bdatTransfer_binarymime (srv : Server) (env : Env) (c : Conn) (size : Nat)
    (lastChunk : Bool) (r : Conn × List Event) (h : bdatTransfer srv env c size lastChunk = some r) :
    r.1.binarymime = c.binarymime := by
  simp only [bdatTransfer] at h
  split at h
  · cases h; exact reset_binarymime c
  split at h
  · cases h
  split at h
  · cases h
  split at h
  · cases h
    rw [reset_binarymime]
    exact bdatSpawn_binarymime c
  split at h
  · cases h
    rw [bdatFinishLast_binarymime]
    simpa using bdatSpawn_binarymime c
  · cases h
    simpa using bdatSpawn_binarymime c

theorem bdat_binarymime (srv : Server) (env : Env) (c : Conn) (arg : String)
    (r : Conn × List Event) (h : handleBdat srv env c arg = some r) :
    r.1.binarymime = c.binarymime := by
  simp only [handleBdat] at h
  split at h
  · cases h; rfl
  split at h
  · cases h; rfl
  split at h
  · cases h; rfl
  split at h
  · cases h; rfl
  split at h
  · cases h; rfl
  · exact bdatTransfer_binarymime _ _ _ _ _ _ h

theorem mailFinish_binarymime (env : Env) (c : Conn) (sender : String) (opts : MailOptions) :
    (mailFinish env c sender opts).1.binarymime = c.binarymime := by
  simp only [mailFinish]
  split
  · rfl
  rcases env.mailRes with _ | _ <;> rfl

theorem mail_binarymime (srv : Server) (env : Env) (c : Conn) (arg : String)
    (r : Conn × List Event) (h : handleMail srv env c arg = some r)
    (hb : c.binarymime = false) : r.1.binarymime = false := by
  simp only [handleMail] at h
  split at h
  · cases h; exact hb
  split at h
  · cases h; exact hb
  split at h
  · cases h; exact hb
  split at h
  · cases h; exact hb
  split at h
  · cases h; exact hb
  split at h
  · split at h
    · cases h; rfl
    · split at h
      · cases h
      · cases h; rfl
      · cases h
        rw [mailFinish_binarymime]
  · cases h
    rw [mailFinish_binarymime]

theorem handleCmd_binarymime (srv : Server) (env : Env) (c : Conn) (cmd arg : String)
    (r : Conn × List Event) (h : handleCmd srv env c cmd arg = some r)
    (hb : c.binarymime = false) : r.1.binarymime = false := by
  delta handleCmd at h
  by_cases h1 : cmd = "SEND" ∨ cmd = "SOML" ∨ cmd = "SAML" ∨ cmd = "EXPN" ∨ cmd = "HELP" ∨
      cmd = "TURN"
  · rw [if_pos h1] at h; cases h; exact hb
  rw [if_neg h1] at h
  by_cases h2 : cmd = "HELO" ∨ cmd = "EHLO"
  · rw [if_pos h2] at h; cases h; rw [greet_binarymime]; exact hb
  rw [if_neg h2] at h
  by_cases h3 : cmd = "MAIL"
  · rw [if_pos h3] at h; exact mail_binarymime _ _ _ _ _ h hb
  rw [if_neg h3] at h
  by_cases h4 : cmd = "RCPT"
  · rw [if_pos h4] at h; cases h; rw [rcpt_binarymime]; exact hb
  rw [if_neg h4] at h
  by_cases h5 : cmd = "VRFY"
  · rw [if_pos h5] at h; cases h; exact hb
  rw [if_neg h5] at h
  by_cases h6 : cmd = "NOOP"
  · rw [if_pos h6] at h; cases h; exact hb
  rw [if_neg h6] at h
  by_cases h7 : cmd = "RSET"
  · rw [if_pos h7] at h; cases h; rw [rsetCmd, reset_binarymime]; exact hb
  rw [if_neg h7] at h
  by_cases h8 : cmd = "BDAT"
  · rw [if_pos h8] at h; exact (bdat_binarymime _ _ _ _ _ h).trans hb
  rw [if_neg h8] at h
  by_cases h9 : cmd = "DATA"
  · rw [if_pos h9] at h; exact (data_binarymime _ _ _ _ _ h).trans hb
  rw [if_neg h9] at h
  by_cases h10 : cmd = "QUIT"
  · rw [if_pos h10] at h; cases h; exact hb
  rw [if_neg h10] at h
  by_cases h11 : cmd = "AUTH"
  · rw [if_pos h11] at h
    split at h
    · cases h; exact hb
    · cases h; exact (auth_binarymime _ _ _ _).trans hb
  rw [if_neg h11] at h
  by_cases h12 : cmd = "STARTTLS"
  · rw [if_pos h12] at h; cases h; exact (starttls_binarymime _ _ _).trans hb
  rw [if_neg h12] at h
  cases h
  exact hb

theorem handle_binarymime (srv : Server) (env : Env) (c : Conn) (cmd arg : String)
    (r : Conn × List Event) (h : handle srv env c cmd arg = some r)
    (hb : c.binarymime = false) : r.1.binarymime = false := by
  simp only [handle] at h
  split at h
  · cases h; exact hb
  · exact handleCmd_binarymime _ _ _ _ _ _ h hb

theorem runCmds_binarymime (srv : Server) :
    ∀ (steps : List Step) (c c' : Conn), runCmds srv c steps = some c' →
      c.binarymime = false → c'.binarymime = false := by
  intro steps
  induction steps with
  | nil =>
    intro c c' h hb
    cases h
    exact hb
  | cons s rest ih =>
    intro c c' h hb
    simp only [runCmds] at h
    split at h
    · cases h
    next r heq => exact ih r.1 c' h (handle_binarymime _ _ _ _ _ _ heq hb)

/-- In rs-smtp, `binarymime` is `false` in every reachable connection
state: no code path ever sets it to `true`. -/
theorem reachable_binarymime (srv : Server) (c : Conn) (h : Reachable srv c) :
    c.binarymime = false := by
  obtain ⟨steps, hs⟩ := h
  exact runCmds_binarymime srv steps Conn.init c hs rfl

end BinarymimeInvariant

section ResetLemmas

theorem reset_fromReceived (c : Conn) : (Conn.reset c).1.fromReceived = false := rfl

theorem reset_recipients (c : Conn) : (Conn.reset c).1.recipients = [] := rfl

theorem reset_bytesReceived (c : Conn) : (Conn.reset c).1.bytesReceived = 0 := rfl

theorem reset_bdatPipe (c : Conn) : (Conn.reset c).1.bdatPipe = false := by
  simp only [Conn.reset]
  split <;> simp_all

theorem reset_helo (c : Conn) : (Conn.reset c).1.helo = c.helo := by
  simp only [Conn.reset]
  split <;> rfl

theorem reset_didAuth (c : Conn) : (Conn.reset c).1.didAuth = c.didAuth := by
  simp only [Conn.reset]
  split <;> rfl

theorem reset_safeStream (c : Conn) : (Conn.reset c).1.safeStream = c.safeStream := by
  simp only [Conn.reset]
  split <;> rfl

theorem reset_hasSession (c : Conn) : (Conn.reset c).1.hasSession = c.hasSession := by
  simp only [Conn.reset]
  split <;> rfl

theorem reset_sessionReset_mem (c : Conn) (h : c.hasSession = true) :
    Event.sessionReset ∈ (Conn.reset c).2 := by
  simp only [Conn.reset]
  split <;> simp [h]

theorem reset_pipeShutdown_mem (c : Conn) (h : c.bdatPipe = true) :
    Event.pipeShutdown ∈ (Conn.reset c).2 := by
  simp only [Conn.reset]
  split <;> simp_all

end ResetLemmas

section PipeWriteLemmas

theorem pipeWrites_append (a b : List Event) :
    pipeWrites (a ++ b) = pipeWrites a ++ pipeWrites b :=
  List.filterMap_append a b _

theorem pipeWrites_nil : pipeWrites [] = [] := rfl

theorem pipeWrites_cons_reply (code : Nat) (ec : EnhancedCode) (ts : List String)
    (l : List Event) : pipeWrites (.reply code ec ts :: l) = pipeWrites l := rfl

theorem pipeWrites_cons_shutdown (l : List Event) :
    pipeWrites (.pipeShutdown :: l) = pipeWrites l := rfl

theorem pipeWrites_cons_sessionReset (l : List Event) :
    pipeWrites (.sessionReset :: l) = pipeWrites l := rfl

theorem pipeWrites_cons_spawnEv (l : List Event) :
    pipeWrites (.sessionDataSpawn :: l) = pipeWrites l := rfl

theorem pipeWrites_cons_write (b : List Nat) (l : List Event) :
    pipeWrites (.pipeWrite b :: l) = b :: pipeWrites l := rfl

theorem pipeWrites_spawn (c : Conn) : pipeWrites (bdatSpawn c).2 = [] := by
  simp only [bdatSpawn]
  split <;> rfl

theorem pipeWrites_reset (c : Conn) : pipeWrites (Conn.reset c).2 = [] := by
  simp only [Conn.reset, pipeWrites]
  split <;> split <;> rfl

theorem pipeWrites_finishLast (env : Env) (c2 : Conn) :
    pipeWrites (bdatFinishLast env c2).2 = [] := by
  simp only [bdatFinishLast]
  rcases h : c2.hasDataResult with _ | _ <;> rcases hd : env.dataRes with e | u <;>
    simp [h, hd, pipeWrites_append, pipeWrites_reset, pipeWrites_cons_shutdown,
      pipeWrites_cons_reply, pipeWrites_nil]

end PipeWriteLemmas

section BdatStepLemmas

theorem bdatTransfer_nonlast (srv : Server) (env : Env) (c : Conn) (size : Nat)
    (hsess : c.bdatPipe = false → c.hasSession = true)
    (hcap : srv.maxMessageBytes = 0 ∨ c.bytesReceived + size ≤ srv.maxMessageBytes)
    (hwire : size ≤ env.wire.length) (hpw : env.pipeWriteRes = .ok ()) :
    bdatTransfer srv env c size false =
      some (bdatNextConn c size,
        (bdatSpawn c).2 ++ [.pipeWrite (env.wire.take size), .reply 250 (2, 0, 0) ["Continue"]]) := by
  have hnocap : ¬ (srv.maxMessageBytes ≠ 0 ∧ srv.maxMessageBytes < c.bytesReceived + size) := by
    rcases hcap with h | h
    · simp [h]
    · rintro ⟨_, hlt⟩
      omega
  have hsess2 : ¬ (¬ c.bdatPipe = true ∧ ¬ c.hasSession = true) := by
    rcases hp : c.bdatPipe with _ | _
    · simp [hp, hsess hp]
    · simp [hp]
  have hwire2 : ¬ (env.wire.length < size) := by omega
  simp only [bdatTransfer, hnocap, if_neg, if_false, hsess2, hwire2, hpw]
  simp [bdatNextConn]

theorem bdatTransfer_last (srv : Server) (env : Env) (c : Conn) (size : Nat)
    (hsess : c.bdatPipe = false → c.hasSession = true)
    (hcap : srv.maxMessageBytes = 0 ∨ c.bytesReceived + size ≤ srv.maxMessageBytes)
    (hwire : size ≤ env.wire.length) (hpw : env.pipeWriteRes = .ok ()) :
    bdatTransfer srv env c size true =
      some ((bdatFinishLast env (bdatNextConn c size)).1,
        (bdatSpawn c).2 ++ Event.pipeWrite (env.wire.take size) ::
          (bdatFinishLast env (bdatNextConn c size)).2) := by
  have hnocap : ¬ (srv.maxMessageBytes ≠ 0 ∧ srv.maxMessageBytes < c.bytesReceived + size) := by
    rcases hcap with h | h
    · simp [h]
    · rintro ⟨_, hlt⟩
      omega
  have hsess2 : ¬ (¬ c.bdatPipe = true ∧ ¬ c.hasSession = true) := by
    rcases hp : c.bdatPipe with _ | _
    · simp [hp, hsess hp]
    · simp [hp]
  have hwire2 : ¬ (env.wire.length < size) := by omega
  simp only [bdatTransfer, hnocap, if_neg, if_false, hsess2, hwire2, hpw]
  simp [bdatNextConn]

theorem splitWs_single_not_empty (arg s : String) (h : splitWs arg = [s]) :
    (splitWs arg).isEmpty = false := by
  rw [h]; rfl

theorem handleBdat_nonlast (srv : Server) (env : Env) (c : Conn) (arg s : String) (size : Nat)
    (hargs : splitWs arg = [s]) (hsz : parseUsize s = some size)
    (hfrom : c.fromReceived = true) (hrcpt : c.recipients ≠ [])
    (hsess : c.bdatPipe = false → c.hasSession = true)
    (hcap : srv.maxMessageBytes = 0 ∨ c.bytesReceived + size ≤ srv.maxMessageBytes)
    (hwire : size ≤ env.wire.length) (hpw : env.pipeWriteRes = .ok ()) :
    handleBdat srv env c arg =
      some (bdatNextConn c size,
        (bdatSpawn c).2 ++ [.pipeWrite (env.wire.take size), .reply 250 (2, 0, 0) ["Continue"]]) := by
  have hr : c.recipients.isEmpty = false := by
    cases hx : c.recipients with
    | nil => exact absurd hx hrcpt
    | cons a l => rfl
  simp only [handleBdat, hargs]
  simp [hfrom, hr, hsz, bdatTransfer_nonlast srv env c size hsess hcap hwire hpw]

theorem handleBdat_last (srv : Server) (env : Env) (c : Conn) (arg s t : String) (size : Nat)
    (hargs : splitWs arg = [s, t]) (hlast : strLower t = "last")
    (hsz : parseUsize s = some size)
    (hfrom : c.fromReceived = true) (hrcpt : c.recipients ≠ [])
    (hsess : c.bdatPipe = false → c.hasSession = true)
    (hcap : srv.maxMessageBytes = 0 ∨ c.bytesReceived + size ≤ srv.maxMessageBytes)
    (hwire : size ≤ env.wire.length) (hpw : env.pipeWriteRes = .ok ()) :
    handleBdat srv env c arg =
      some ((bdatFinishLast env (bdatNextConn c size)).1,
        (bdatSpawn c).2 ++ Event.pipeWrite (env.wire.take size) ::
          (bdatFinishLast env (bdatNextConn c size)).2) := by
  have hr : c.recipients.isEmpty = false := by
    cases hx : c.recipients with
    | nil => exact absurd hx hrcpt
    | cons a l => rfl
  simp only [handleBdat, hargs]
  simp [hfrom, hr, hsz, hlast, bdatTransfer_last srv env c size hsess hcap hwire hpw]

end BdatStepLemmas


theorem sanity_parse_cmd :
    parseCmd "MAIL FROM:<a@b> SIZE=3\r\n" = .ok ("MAIL", "FROM:<a@b> SIZE=3") ∧
    parseCmd "NOOP\r\n" = .ok ("NOOP", "") ∧
    parseCmd "starttls\r\n" = .ok ("STARTTLS", "") ∧
    parseCmd "abcde\r\n" = .error "Mangled command: abcde" ∧
    splitWs " a  b " = ["a", "b"] ∧
    parseUsize "42" = some 42 ∧ parseUsize "x" = none := by
  refine ⟨by decide, by decide, by decide, by decide, by decide, by decide, by decide⟩

/-! ## Base64 (the `base64` crate's `general_purpose::STANDARD` engine:
standard alphabet, canonical padding required, trailing bits rejected) -/

theorem sanity_b64 :
    b64decode "AGFiAGNk" = some (strBytes "\x00ab\x00cd") ∧
    b64decode "!!!" = none ∧ b64decode "" = some [] ∧
    b64encode (strBytes "ab") = "YWI=" := by
  refine ⟨by decide, by decide, by decide, by decide⟩

/-- C1: For every accepted DATA transfer under the size cap, the dot-reader
delivers exactly the on-wire body with leading dots stripped and CRLFs
intact.  FALSE of the code: in the `CR` state on `'\n'` the implementation
executes `break` before `buf.put_slice`, so the `\n` of every CRLF inside
the body is consumed but never delivered.  On the body `a\r\nb\r\n.\r\n`
with cap 100 the reader delivers `a\rb\r`, while the specified decoding is
`a\r\nb\r\n`. -/
theorem c1_data_body_lf_dropped :
    deliver 100 (strBytes "a\r\nb\r\n.\r\n") = (strBytes "a\rb\r", .eofOk) ∧
    specDotDecode .beginLine (strBytes "a\r\nb\r\n.\r\n") = some (strBytes "a\r\nb\r\n") ∧
    strBytes "a\rb\r" ≠ strBytes "a\r\nb\r\n" := by
  refine ⟨by decide, by decide, by decide⟩

/-- C3: With `max_message_bytes = 0` the byte cap is supposed to be
disabled.  FALSE of the code: `n` is initialized to 0 and the buffer
truncation `&bytes[..this.n]` applies regardless of `limited`, so every
poll truncates the buffer to zero bytes, consumes nothing and returns
`Poll::Pending` after waking itself — no byte of the body is ever
delivered.  The same body under a large cap is delivered (up to the
separate CRLF defect). -/
theorem c3_zero_cap_delivers_nothing :
    deliver 0 (strBytes "hi\r\n.\r\n") = ([], .diverge) ∧
    deliver 1000 (strBytes "hi\r\n.\r\n") = (strBytes "hi\r", .eofOk) := by
  refine ⟨by decide, by decide⟩

/-- C2 counterexample: a reply with a single text is claimed to be exactly
one line on the wire; `write_response` actually writes the `<code>-<text>`
dash line for every text, the last included, so the `500` answer to an
unknown verb is two lines. -/
theorem c2_single_text_two_lines :
    writeResponse 500 (5, 5, 2) ["Syntax errors, FOO command unrecognized"] =
      ["500-Syntax errors, FOO command unrecognized",
       "500 5.5.2 Syntax errors, FOO command unrecognized"] ∧
    writeResponse 500 (5, 5, 2) ["Syntax errors, FOO command unrecognized"] ≠
      ["500 5.5.2 Syntax errors, FOO command unrecognized"] := by
  exact ⟨rfl, by decide⟩

theorem getLastD_eq_getLast : ∀ (l : List String) (h : l ≠ []), l.getLastD "" = l.getLast h
  | [_], _ => rfl
  | _ :: b :: l, _ => by
    simp [List.getLastD]

/-- C2 amended: for texts t1..tk the wire output is one `<code>-<ti>` line
for every text (the last included), followed by one final
`<code> [<ec>] <tk>` line; so a reply with k texts is k+1 lines, and a
single-text reply is two lines. -/
theorem c2_reply_shape (code : Nat) (ec : EnhancedCode) (texts : List String)
    (h : texts ≠ []) :
    writeResponse code ec texts =
      (texts.map fun t => toString code ++ "-" ++ t) ++
        [(fun rec => if rec = noEnhancedCode then toString code ++ " " ++ texts.getLast h
            else toString code ++ " " ++ toString rec.1 ++ "." ++ toString rec.2.1 ++ "." ++
              toString rec.2.2 ++ " " ++ texts.getLast h)
          (if ec = enhancedCodeNotSet then
            (if code / 100 = 2 ∨ code / 100 = 4 ∨ code / 100 = 5 then ((5 : Int), (5 : Int), (0 : Int))
             else noEnhancedCode)
           else ec)] ∧
    (writeResponse code ec texts).length = texts.length + 1 := by
  have hlast : texts.getLastD "" = texts.getLast h := getLastD_eq_getLast texts h
  constructor
  · simp only [writeResponse, hlast]
  · simp [writeResponse]

theorem c2_reply_shape_witness :
    writeResponse 500 (5, 5, 2) ["x"] =
      (["x"].map fun t => toString (500 : Nat) ++ "-" ++ t) ++
        [(fun rec => if rec = noEnhancedCode then
              toString (500 : Nat) ++ " " ++ (["x"] : List String).getLast (by decide)
            else toString (500 : Nat) ++ " " ++ toString rec.1 ++ "." ++ toString rec.2.1 ++ "." ++
              toString rec.2.2 ++ " " ++ (["x"] : List String).getLast (by decide))
          (if ((5 : Int), (5 : Int), (2 : Int)) = enhancedCodeNotSet then
            (if (500 : Nat) / 100 = 2 ∨ (500 : Nat) / 100 = 4 ∨ (500 : Nat) / 100 = 5 then
              ((5 : Int), (5 : Int), (0 : Int))
             else noEnhancedCode)
           else ((5 : Int), (5 : Int), (2 : Int)))] ∧
    (writeResponse 500 (5, 5, 2) ["x"]).length = 2 :=
  c2_reply_shape 500 (5, 5, 2) ["x"] (by decide)

/-- C6: `decode_xtext` is claimed to never panic and to reject malformed
escapes with an error.  FALSE of the code: on the input `"+"` it records
the "incomplete hexchar" error, shrinks `decoded` with `replace_range`,
and then both calls `replace_range` with the now out-of-bounds original
range and `char.unwrap()` on the failed radix-16 parse — a panic.  Valid
escapes such as `"+3F"` do decode. -/
theorem c6_decode_xtext_panics :
    decodeXtext "+" = .panic ∧ decodeXtext "+3F" = .ok "?" ∧ decodeXtext "ab" = .ok "ab" := by
  refine ⟨by decide, by decide, by decide⟩

/-- C4 counterexample: with `max_message_bytes = 5` and a longer body the
reader does yield the `Data too large` error after five bytes, but the
dispatcher's reply is `554 5.0.0 <error message>` — not the claimed
`552 5.3.4 Max message size exceeded` — and no draining read occurs. -/
theorem c4_counterexample :
    deliver 5 (strBytes "hello world\r\n.\r\n") = (strBytes "hello", .errTooLarge) ∧
    ∃ r, handleData { maxMessageBytes := 5 } { dataRes := .error "Data too large" }
        { Conn.init with hasSession := true, fromReceived := true, recipients := ["c@d"] } "" =
        some r ∧
      Event.reply 554 (5, 0, 0) ["Data too large"] ∈ r.2 ∧
      (∀ ec ts, Event.reply 552 ec ts ∉ r.2) ∧ Event.drainWire ∉ r.2 := by
  refine ⟨by decide, _, rfl, by decide, ?_, by decide⟩
  intro ec ts hm
  have hpipe : Conn.init.bdatPipe = false := rfl
  simp [Conn.reset, hpipe] at hm

/-- C4 amended: when the cap is exceeded the dot-reader yields the
`Data too large` error to the Session, the dispatcher performs no drain
(the `read_to_end` is commented out), and when the Session propagates an
error message `m` the reply to DATA is `554 5.0.0 m`, followed by the
transaction reset. -/
theorem c4_data_too_large_reply (srv : Server) (env : Env) (c : Conn) (m : String)
    (h1 : c.bdatPipe = false) (h2 : c.binarymime = false) (h3 : c.fromReceived = true)
    (h4 : c.recipients ≠ []) (h5 : c.hasSession = true) (h6 : env.dataRes = .error m) :
    handleData srv env c "" =
      some ((Conn.reset c).1,
        .reply 354 (2, 0, 0) ["Go ahead. End your data with <CR><LF>.<CR><LF>"] ::
          .sessionDataStart :: .reply 554 (5, 0, 0) [m] :: (Conn.reset c).2) := by
  have hr : c.recipients.isEmpty = false := by
    cases hx : c.recipients with
    | nil => exact absurd hx h4
    | cons a l => rfl
  simp [handleData, h1, h2, h3, h5, h6, hr, strLen]

theorem c4_data_too_large_reply_witness :
    handleData { maxMessageBytes := 5 } { dataRes := .error "Data too large" }
        { Conn.init with hasSession := true, fromReceived := true, recipients := ["c@d"] } "" =
      some ((Conn.reset
          { Conn.init with hasSession := true, fromReceived := true, recipients := ["c@d"] }).1,
        .reply 354 (2, 0, 0) ["Go ahead. End your data with <CR><LF>.<CR><LF>"] ::
          .sessionDataStart :: .reply 554 (5, 0, 0) ["Data too large"] ::
          (Conn.reset
            { Conn.init with hasSession := true, fromReceived := true, recipients := ["c@d"] }).2) :=
  c4_data_too_large_reply { maxMessageBytes := 5 } { dataRes := .error "Data too large" }
    { Conn.init with hasSession := true, fromReceived := true, recipients := ["c@d"] }
    "Data too large" rfl rfl rfl (by decide) rfl rfl

/-- C5: in an accepted BDAT transfer every chunk forwards exactly the
`size` bytes following its header, unmodified, into the pipe feeding
`session.data`; the sequence of pipe writes is exactly the sequence of
declared chunk payloads (so their concatenations agree as well). -/
theorem c5_bdat_chunks_forwarded (srv : Server) :
    ∀ (chunks : List BdatChunk) (c : Conn), BdatOk srv c chunks →
      ∃ r, bdatRun srv c chunks = some r ∧ pipeWrites r.2 = chunks.map chunkPayload := by
  intro chunks
  induction chunks with
  | nil =>
    intro c _
    exact ⟨(c, []), rfl, rfl⟩
  | cons ch rest ih =>
    intro c hok
    simp only [BdatOk] at hok
    obtain ⟨hfrom, hrcpt, hsess, hpw, s, size, hsz, hcap, hwire, hcase⟩ := hok
    rcases hcase with ⟨hargs, hrest⟩ | ⟨t, hargs, hlast, hrestnil⟩
    · obtain ⟨r2, hrun2, hpipes2⟩ := ih (bdatNextConn c size) hrest
      have hstep := handleBdat_nonlast srv ch.env c ch.arg s size hargs hsz hfrom hrcpt
        hsess hcap hwire hpw
      refine ⟨(r2.1,
        ((bdatSpawn c).2 ++
          [.pipeWrite (ch.env.wire.take size), .reply 250 (2, 0, 0) ["Continue"]]) ++ r2.2),
        ?_, ?_⟩
      · simp only [bdatRun, hstep, hrun2]
      · have hsize : chunkPayload ch = ch.env.wire.take size := by
          simp [chunkPayload, declaredSize, hargs, hsz]
        simp [pipeWrites_append, pipeWrites_spawn, pipeWrites_cons_write,
          pipeWrites_cons_reply, pipeWrites_nil, hpipes2, hsize]
    · subst hrestnil
      have hstep := handleBdat_last srv ch.env c ch.arg s t size hargs hlast hsz hfrom hrcpt
        hsess hcap hwire hpw
      refine ⟨((bdatFinishLast ch.env (bdatNextConn c size)).1,
        ((bdatSpawn c).2 ++ Event.pipeWrite (ch.env.wire.take size) ::
          (bdatFinishLast ch.env (bdatNextConn c size)).2) ++ []), ?_, ?_⟩
      · simp only [bdatRun, hstep]
      · have hsize : chunkPayload ch = ch.env.wire.take size := by
          simp [chunkPayload, declaredSize, hargs, hsz]
        simp [pipeWrites_append, pipeWrites_spawn, pipeWrites_cons_write,
          pipeWrites_finishLast, pipeWrites_nil, hsize]

theorem c5_bdat_chunks_forwarded_witness :
    BdatOk {}
      { Conn.init with fromReceived := true, recipients := ["c@d"], hasSession := true }
      [⟨"5", { wire := strBytes "hello" }⟩, ⟨"6 LAST", { wire := strBytes " world" }⟩] ∧
    ∃ r, bdatRun {}
        { Conn.init with fromReceived := true, recipients := ["c@d"], hasSession := true }
        [⟨"5", { wire := strBytes "hello" }⟩, ⟨"6 LAST", { wire := strBytes " world" }⟩] =
        some r ∧
      (pipeWrites r.2).flatten = strBytes "hello world" := by
  have hok : BdatOk {}
      { Conn.init with fromReceived := true, recipients := ["c@d"], hasSession := true }
      [⟨"5", { wire := strBytes "hello" }⟩, ⟨"6 LAST", { wire := strBytes " world" }⟩] := by
    exact ⟨rfl, by decide, by decide, rfl,
      ⟨"5", 5, by decide, Or.inl rfl, by decide,
        Or.inl ⟨by decide,
          ⟨by decide, by decide, by decide, rfl,
            ⟨"6", 6, by decide, Or.inl rfl, by decide,
              Or.inr ⟨"LAST", by decide, by decide, rfl⟩⟩⟩⟩⟩⟩
  refine ⟨hok, ?_⟩
  obtain ⟨r, h1, h2⟩ := c5_bdat_chunks_forwarded {} _ _ hok
  exact ⟨r, h1, by rw [h2]; decide⟩

/-- C7: after RSET the transaction state is empty (`from_received` false,
no recipients, `binarymime` false — an invariant of every reachable
state —, `bytes_received` zero, BDAT pipe shut down and absent),
`session.reset()` has run when a session exists, and the reply is
`250 2.0.0 Session reset`. -/
theorem c7_rset_clears_transaction (srv : Server) (env : Env) (c : Conn) (arg : String)
    (r : Conn × List Event) (hreach : Reachable srv c)
    (h : handle srv env c "RSET" arg = some r) :
    r.1.fromReceived = false ∧ r.1.recipients = [] ∧ r.1.binarymime = false ∧
    r.1.bytesReceived = 0 ∧ r.1.bdatPipe = false ∧
    (c.hasSession = true → Event.sessionReset ∈ r.2) ∧
    (c.bdatPipe = true → Event.pipeShutdown ∈ r.2) ∧
    Event.reply 250 (2, 0, 0) ["Session reset"] ∈ r.2 := by
  have hr : handle srv env c "RSET" arg = some (rsetCmd c) := rfl
  rw [hr] at h
  cases h
  refine ⟨reset_fromReceived c, reset_recipients c, ?_, reset_bytesReceived c,
    reset_bdatPipe c, ?_, ?_, ?_⟩
  · exact (reset_binarymime c).trans (reachable_binarymime srv c hreach)
  · intro hs
    exact List.mem_append_left _ (reset_sessionReset_mem c hs)
  · intro hp
    exact List.mem_append_left _ (reset_pipeShutdown_mem c hp)
  · exact List.mem_append_right _ (by simp)

theorem c7_rset_clears_transaction_witness :
    (rsetCmd Conn.init).1.fromReceived = false ∧ (rsetCmd Conn.init).1.recipients = [] ∧
    (rsetCmd Conn.init).1.binarymime = false ∧ (rsetCmd Conn.init).1.bytesReceived = 0 ∧
    (rsetCmd Conn.init).1.bdatPipe = false ∧
    (Conn.init.hasSession = true → Event.sessionReset ∈ (rsetCmd Conn.init).2) ∧
    (Conn.init.bdatPipe = true → Event.pipeShutdown ∈ (rsetCmd Conn.init).2) ∧
    Event.reply 250 (2, 0, 0) ["Session reset"] ∈ (rsetCmd Conn.init).2 :=
  c7_rset_clears_transaction {} {} Conn.init "" (rsetCmd Conn.init) ⟨[], rfl⟩ rfl

/-- C8 counterexample: on a read error — a timeout included, since
`read_line`'s `timeout(...)` result reaches the dispatch loop as the same
`Err` — the loop replies `221 2.4.0 Connection error, sorry` and exits;
the claimed line `221 2.4.2 Idle timeout, bye bye` is never written (it
exists only in the draft copy of the server, not in the crate). -/
theorem c8_timeout_counterexample :
    connLoopStep {} {} Conn.init .err =
      some (Conn.init, [.reply 221 (2, 4, 0) ["Connection error, sorry"]], false) ∧
    Event.reply 221 (2, 4, 2) ["Idle timeout, bye bye"] ∉
      [Event.reply 221 (2, 4, 0) ["Connection error, sorry"]] := by
  exact ⟨rfl, by decide⟩

/-- C8 amended: for every connection whose read fails (timeout or
transport error alike), the dispatch loop answers
`221 2.4.0 Connection error, sorry` and then closes the connection; the
error is never retried (the loop does not continue). -/
theorem c8_read_error_closes (srv : Server) (env : Env) (c : Conn) :
    connLoopStep srv env c .err =
      some (c, [.reply 221 (2, 4, 0) ["Connection error, sorry"]], false) := rfl

/-- C9: after a successful STARTTLS upgrade the connection state is fresh:
the transport is TLS, `helo` is empty, `did_auth` is false, and the
transaction fields are cleared (`binarymime` by the reachability
invariant); `did_auth` never survives the upgrade. -/
theorem c9_starttls_resets_to_fresh (srv : Server) (env : Env) (c : Conn)
    (r : Conn × List Event) (hreach : Reachable srv c)
    (hclear : c.safeStream = false) (hstream : c.unsafeStream = true)
    (hacc : srv.tlsAcceptor = true) (hok : env.handshakeOk = true)
    (h : handle srv env c "STARTTLS" "" = some r) :
    r.1.safeStream = true ∧ r.1.helo = "" ∧ r.1.didAuth = false ∧
    r.1.fromReceived = false ∧ r.1.recipients = [] ∧ r.1.bytesReceived = 0 ∧
    r.1.bdatPipe = false ∧ r.1.binarymime = false := by
  have hr : handle srv env c "STARTTLS" "" = some (handleStarttls srv env c) := rfl
  rw [hr] at h
  cases h
  have hbm := reachable_binarymime srv c hreach
  by_cases hs : c.hasSession
  · simp [handleStarttls, Conn.isTls, hclear, hstream, hacc, hok, hs,
      reset_fromReceived, reset_recipients, reset_bytesReceived, reset_bdatPipe,
      reset_helo, reset_didAuth, reset_safeStream, reset_binarymime, hbm]
  · simp [handleStarttls, Conn.isTls, hclear, hstream, hacc, hok, hs,
      reset_fromReceived, reset_recipients, reset_bytesReceived, reset_bdatPipe,
      reset_helo, reset_didAuth, reset_safeStream, reset_binarymime, hbm]

theorem c9_starttls_resets_to_fresh_witness :
    (handleStarttls { tlsAcceptor := true } {} Conn.init).1.safeStream = true ∧
    (handleStarttls { tlsAcceptor := true } {} Conn.init).1.helo = "" ∧
    (handleStarttls { tlsAcceptor := true } {} Conn.init).1.didAuth = false ∧
    (handleStarttls { tlsAcceptor := true } {} Conn.init).1.fromReceived = false ∧
    (handleStarttls { tlsAcceptor := true } {} Conn.init).1.recipients = [] ∧
    (handleStarttls { tlsAcceptor := true } {} Conn.init).1.bytesReceived = 0 ∧
    (handleStarttls { tlsAcceptor := true } {} Conn.init).1.bdatPipe = false ∧
    (handleStarttls { tlsAcceptor := true } {} Conn.init).1.binarymime = false :=
  c9_starttls_resets_to_fresh { tlsAcceptor := true } {} Conn.init
    (handleStarttls { tlsAcceptor := true } {} Conn.init) ⟨[], rfl⟩ rfl rfl rfl rfl rfl

/-- C10: when an AUTH command reaches the initial-response parse and the
argument is not valid base64, `handle_auth` returns with no reply at all
and the connection state unchanged (`did_auth` in particular): the server
silently waits for the next command. -/
theorem c10_auth_bad_base64_silent (srv : Server) (env : Env) (c : Conn)
    (arg p0 p1 : String) (rest : List String)
    (hauths : c.auths.isEmpty = false) (hhelo : ¬ c.helo = "") (hdid : c.didAuth = false)
    (htls : c.isTls = true ∨ srv.allowInsecureAuth = true)
    (hparts : splitWs arg = p0 :: p1 :: rest)
    (hb64 : b64decode p1 = none) :
    handleAuth srv env c arg = (c, []) := by
  have hcond : ¬ (¬ c.isTls = true ∧ ¬ srv.allowInsecureAuth = true) := by
    rcases htls with hx | hx <;> simp [hx]
  have himp : c.isTls = false → srv.allowInsecureAuth = true := by
    intro hf
    rcases htls with hx | hx
    · rw [hx] at hf; cases hf
    · exact hx
  have hlen : 1 < (p0 :: p1 :: rest).length := by
    simp [Nat.lt_add_of_pos_left]
  simp [handleAuth, hauths, hhelo, hdid, hparts, hcond, hlen, hb64]
  exact himp

theorem c10_auth_bad_base64_silent_witness :
    handleAuth { allowInsecureAuth := true } {}
      { Conn.init with auths := ["PLAIN"], helo := "x", hasSession := true } "PLAIN !!!" =
      ({ Conn.init with auths := ["PLAIN"], helo := "x", hasSession := true }, []) :=
  c10_auth_bad_base64_silent { allowInsecureAuth := true } {}
    { Conn.init with auths := ["PLAIN"], helo := "x", hasSession := true }
    "PLAIN !!!" "PLAIN" "!!!" [] rfl (by decide) rfl (Or.inr rfl) (by decide) (by decide)

end RsSmtp
